import Mathlib

/-!
Verification of the ledger node implemented in the ex2 sources (block.py,
transaction.py, node.py).  The Python classes are shallowly embedded as Lean
definitions.  Cryptographic hashing is modelled as a perfect hash: sha256 is
replaced by an injective pairing of the hashed data into Nat, so digests are
collision free and recomputing a digest from the same data always gives the
same value, exactly as the source assumes.  Signature verification is an
external capability in the source (utils.verify; utils.py is not part of the
sources); it is modelled as an explicit function parameter.  Peer propagation
loops in the source only mutate the peer nodes, never the node itself (a
propagated artifact coming back is rejected by the already-known or
already-spent checks), so the single node state transition is modelled with
the propagation calls omitted.  Loops of the source that can run forever on
some inputs carry an explicit fuel parameter; a result of none means the fuel
ran out, an uncaught Python exception was raised, or the loop genuinely
diverges, as noted at each definition.
-/

namespace Ex2

/-- TxID (utils.TxID): a sha256 digest, modelled as Nat under the perfect
hash model. -/
abbrev TxID := Nat

/-- BlockHash (utils.BlockHash): a sha256 digest or the genesis sentinel,
modelled as Nat under the perfect hash model. -/
abbrev BlockHash := Nat

/-- Modelled from the spec: utils.py is not among the sources; it provides
the reserved sentinel GENESIS_BLOCK_PREV denoting no predecessor.  Real
digests of the model are all positive, so 0 never collides with one. -/
def GENESIS_BLOCK_PREV : BlockHash := 0

/-- Modelled from the spec: utils.py is not among the sources; it provides
the blockCapacity configuration constant BLOCK_SIZE (maximum number of
transactions per block, coinbase included).  The spec leaves the integer
open; the development fixes it at 10. -/
def BLOCK_SIZE : Nat := 10

/-- Transaction (transaction.py): an output public key, an optional input
TxID and a signature.  Public keys and signatures are opaque byte strings in
the source, modelled as Nat. -/
structure Transaction where
  output : Nat
  input : Option TxID
  signature : Nat
deriving DecidableEq, Repr

/-- Encoding of the optional input used by the digest: the source hashes
the empty string for None (transaction.py line 26). -/
def encodeOptId : Option TxID → Nat
  | none => 0
  | some i => i + 1

/-- Transaction.get_txid: sha256 of output ++ input ++ signature, recomputed
from the fields on every call; modelled as an injective pairing. -/
def Transaction.get_txid (t : Transaction) : TxID :=
  Nat.pair t.output (Nat.pair (encodeOptId t.input) t.signature)

/-- Block (block.py): a previous block hash and an ordered transaction
list. -/
structure Block where
  prev_block_hash : BlockHash
  transactions : List Transaction
deriving DecidableEq, Repr

/-- Injective encoding of a txid list, standing for the byte concatenation
of the fixed-width digests. -/
def encodeIds : List TxID → Nat
  | [] => 0
  | i :: is => Nat.pair i (encodeIds is) + 1

/-- Block.get_block_hash: sha256 of prev_block_hash ++ joined txids
(block.py lines 13-18); the +1 keeps real digests apart from the genesis
sentinel. -/
def Block.get_block_hash (b : Block) : BlockHash :=
  Nat.pair b.prev_block_hash
    (encodeIds (b.transactions.map Transaction.get_txid)) + 1

/-- Messages passed to the external verify capability.  The source passes
either the txid of a transaction (node.py line 49) or the byte concatenation
tx.input + tx.output (node.py line 143); the two shapes are kept apart as
constructors. -/
inductive Msg where
  | txidOf (i : TxID)
  | inputOutput (i : TxID) (o : Nat)
deriving DecidableEq, Repr

/-- Signature verification capability: message, signature, public key. -/
abbrev VerifyFn := Msg → Nat → Nat → Bool

/-- Node state (node.py __init__): mempool, block store, chain tip and UTXO
list, plus the own public key.  The private key and the connection set are
omitted: the private key is only used by create_transaction, and connections
only drive propagation to peers. -/
structure NodeState where
  public_key : Nat
  mempool : List Transaction
  blocks : List (BlockHash × Block)
  latest_block_hash : BlockHash
  utxo : List Transaction
deriving DecidableEq, Repr

/-- Dictionary lookup in the block store (Python dict indexing). -/
def lookupB : List (BlockHash × Block) → BlockHash → Option Block
  | [], _ => none
  | (h, b) :: rest, k => if h = k then some b else lookupB rest k

/-- Dictionary update blocks[h] = b: replace the binding when present,
append it otherwise. -/
def insertB (bs : List (BlockHash × Block)) (h : BlockHash) (b : Block) :
    List (BlockHash × Block) :=
  if (lookupB bs h).isSome then
    bs.map (fun p => if p.1 = h then (h, b) else p)
  else
    bs ++ [(h, b)]

/-- Node.add_transaction_to_mempool (node.py lines 38-63).  Returns the
boolean result together with the state after the call.  The source first
checks verify(txid, signature, output), then rejects a set input that is not
among the utxo txids, then filters the referenced entry out of the utxo and
appends the transaction to the mempool.  The propagation loop over
connections mutates only the peers and is omitted. -/
def add_transaction_to_mempool (V : VerifyFn) (s : NodeState)
    (t : Transaction) : Bool × NodeState :=
  if ¬ V (Msg.txidOf t.get_txid) t.signature t.output then (false, s)
  else
    let accepted : NodeState :=
      { s with
        utxo := s.utxo.filter (fun u => ¬ (some u.get_txid = t.input)),
        mempool := s.mempool ++ [t] }
    t.input.elim (true, accepted) (fun i =>
      if i ∈ s.utxo.map Transaction.get_txid then (true, accepted)
      else (false, s))

/-- Node.get_balance (node.py lines 354-364): count utxo records whose
output equals the own public key. -/
def get_balance (s : NodeState) : Nat :=
  (s.utxo.filter (fun u => u.output = s.public_key)).length

/-- Node._find_tx_in_utxo (node.py lines 286-291): membership of the txid of
the given transaction itself among the utxo txids. -/
def find_tx_in_utxo (s : NodeState) (t : Transaction) : Bool :=
  s.utxo.any (fun u => u.get_txid == t.get_txid)

/-- Transaction loop of Node._is_valid_block (node.py lines 129-150): walk
the transactions with the seen txid set and the reward count; at the end
require exactly one reward transaction. -/
def validTxLoop (V : VerifyFn) (s : NodeState) :
    List Transaction → List TxID → Nat → Bool
  | [], _, rewards => rewards == 1
  | t :: ts, seen, rewards =>
    if t.get_txid ∈ seen then false
    else
      match t.input with
      | none => validTxLoop V s ts (t.get_txid :: seen) (rewards + 1)
      | some i =>
        if ¬ find_tx_in_utxo s t then false
        else if ¬ V (Msg.inputOutput i t.output) t.signature t.output then
          false
        else validTxLoop V s ts (t.get_txid :: seen) rewards

/-- Node._is_valid_block (node.py lines 111-152): recompute the block hash
and compare (the comparison recomputes the same pure function of the block
fields, so it always succeeds, as in the source), check the size bound, then
run the transaction loop against the live utxo of the node. -/
def is_valid_block (V : VerifyFn) (s : NodeState) (b : Block) : Bool :=
  let expected := Nat.pair b.prev_block_hash
      (encodeIds (b.transactions.map Transaction.get_txid)) + 1
  if ¬ (b.get_block_hash = expected) then false
  else if BLOCK_SIZE < b.transactions.length then false
  else validTxLoop V s b.transactions [] 0

/-- Node.mine_block utxo update loop (node.py lines 272-279): for each block
transaction not already among the existing txids, append it to the utxo, add
its txid to the existing set, and re-slice the mempool by BLOCK_SIZE - 1.
The slice sits inside the loop in the source, so it runs once per freshly
added transaction. -/
def mineApply : List Transaction → List Transaction → List TxID →
    List Transaction → List Transaction × List Transaction
  | [], u, _, m => (u, m)
  | t :: ts, u, ex, m =>
    if t.get_txid ∈ ex then mineApply ts u ex m
    else mineApply ts (u ++ [t]) (t.get_txid :: ex) (m.drop (BLOCK_SIZE - 1))

/-- Node.mine_block (node.py lines 244-284).  The coinbase signature is 48
random bytes in the source; the nonce is passed explicitly.  Returns the new
block hash together with the state after the call; peer notification mutates
only the peers and is omitted. -/
def mine_block (nonce : Nat) (s : NodeState) : BlockHash × NodeState :=
  let selected := s.mempool.take (BLOCK_SIZE - 1)
  let reward : Transaction := { output := s.public_key, input := none,
                                signature := nonce }
  let txs := selected ++ [reward]
  let newBlock : Block := { prev_block_hash := s.latest_block_hash,
                            transactions := txs }
  let bh := newBlock.get_block_hash
  let um := mineApply txs s.utxo (s.utxo.map Transaction.get_txid) s.mempool
  (bh, { s with blocks := insertB s.blocks bh newBlock,
                latest_block_hash := bh,
                utxo := um.1,
                mempool := um.2 })

/-- Node._get_chain_length (node.py lines 154-164): walk prev pointers while
the current hash is a key of the block store.  An arbitrary store can contain
a cycle, on which the source loops forever; the fuel bounds the walk and
none means it was exhausted. -/
def chainLength (bs : List (BlockHash × Block)) :
    Nat → BlockHash → Option Nat
  | 0, h => (lookupB bs h).elim (some 0) (fun _ => none)
  | fuel + 1, h =>
    (lookupB bs h).elim (some 0)
      (fun b => (chainLength bs fuel b.prev_block_hash).map (· + 1))

/-- Ancestor pull loop of Node.notify_of_block (node.py lines 76-90): walk
backward from the notified hash while it is neither the genesis sentinel nor
already known, fetching each block from the sender and validating it against
the live node state.  A failed fetch or an invalid block breaks the loop,
keeping the blocks collected so far and the hash the walk stopped at,
exactly as the source does.  none means the fuel was exhausted. -/
def walkFetch (fetch : BlockHash → Option Block) (V : VerifyFn)
    (s : NodeState) : Nat → BlockHash → Option (List Block × BlockHash)
  | 0, current =>
    if current = GENESIS_BLOCK_PREV ∨ (lookupB s.blocks current).isSome then
      some ([], current)
    else none
  | fuel + 1, current =>
    if current = GENESIS_BLOCK_PREV ∨ (lookupB s.blocks current).isSome then
      some ([], current)
    else
      (fetch current).elim (some ([], current)) (fun b =>
        if is_valid_block V s b then
          (walkFetch fetch V s fuel b.prev_block_hash).map
            (fun r => (b :: r.1, r.2))
        else some ([], current))

/-- Store loop of Node.notify_of_block (node.py lines 94-100): iterate over
the reversed candidate list, record each block in the store, and continue
only while the hash the walk stopped at is the genesis sentinel, breaking
after the first stored block otherwise.  The appends the source makes to the
iterated list do not affect the iteration (a Python reversed iterator walks
the original indices downward) and the appended list is read again only by
the peer notification guard, so only the store is returned. -/
def storeLoop (current : BlockHash) :
    List Block → List (BlockHash × Block) → List (BlockHash × Block)
  | [], bs => bs
  | b :: rest, bs =>
    let bs1 := insertB bs b.get_block_hash b
    if current = GENESIS_BLOCK_PREV then storeLoop current rest bs1
    else bs1

/-- Node._find_split_point (node.py lines 219-242): walk the two chains
backward in lockstep, collecting visited hashes, until a hash repeats or
both walks fall off the store; a walk past a hash without a stored block
becomes Python None, modelled as none.  none as the overall result means the
fuel was exhausted. -/
def findSplit (bs : List (BlockHash × Block)) :
    Nat → Option BlockHash → Option BlockHash → List BlockHash →
    Option BlockHash
  | 0, h1, h2, seen =>
    if h1.isNone ∧ h2.isNone then some GENESIS_BLOCK_PREV
    else if h1.elim false (· ∈ seen) then h1
    else if h2.elim false (· ∈ seen) then h2
    else none
  | fuel + 1, h1, h2, seen =>
    if h1.isNone ∧ h2.isNone then some GENESIS_BLOCK_PREV
    else if h1.elim false (· ∈ seen) then h1
    else if h2.elim false (· ∈ seen) then h2
    else
      let seen1 := h1.elim seen (· :: seen)
      let h1n := h1.bind
        (fun v => (lookupB bs v).map (·.prev_block_hash))
      let seen2 := h2.elim seen1 (· :: seen1)
      let h2n := h2.bind
        (fun v => (lookupB bs v).map (·.prev_block_hash))
      findSplit bs fuel h1n h2n seen2

/-- Per-block transaction loop of Node._rollback_to_split_point (node.py
lines 209-215): remove each transaction of the block from the utxo when its
txid is present there, and append it to the mempool when its input is set. -/
def rollbackTxs : List Transaction → List Transaction → List Transaction →
    List Transaction × List Transaction
  | [], u, m => (u, m)
  | t :: ts, u, m =>
    let u1 := if t.get_txid ∈ u.map Transaction.get_txid then
        u.filter (fun x => ¬ (x.get_txid = t.get_txid))
      else u
    let m1 := if t.input.isSome then m ++ [t] else m
    rollbackTxs ts u1 m1

/-- Node._rollback_to_split_point (node.py lines 199-217): walk from the
given hash down to the split point, undoing each block with rollbackTxs.
The source raises ValueError when a hash on the way is missing from the
store; the raise and fuel exhaustion are both modelled as none. -/
def rollbackAux (bs : List (BlockHash × Block)) (split : BlockHash) :
    Nat → BlockHash → List Transaction → List Transaction →
    Option (List Transaction × List Transaction)
  | 0, current, u, m =>
    if current = split then some (u, m) else none
  | fuel + 1, current, u, m =>
    if current = split then some (u, m)
    else
      (lookupB bs current).bind (fun b =>
        let r := rollbackTxs b.transactions u m
        rollbackAux bs split fuel b.prev_block_hash r.1 r.2)

/-- Node._get_chain_to_tip (node.py lines 372-394) and the roll forward
collection loop of Node._reorganize_chain (node.py lines 175-180): both walk
from a tip down to the split point collecting the blocks in tip-first order,
and both fail on a hash missing from the store (ValueError in the former, an
uncaught KeyError in the latter); the failure and fuel exhaustion are both
modelled as none. -/
def collectChain (bs : List (BlockHash × Block)) (split : BlockHash) :
    Nat → BlockHash → Option (List Block)
  | 0, current =>
    if current = split then some [] else none
  | fuel + 1, current =>
    if current = split then some []
    else
      (lookupB bs current).bind (fun b =>
        (collectChain bs split fuel b.prev_block_hash).map (b :: ·))

/-- Per-transaction effect of the roll forward loop of
Node._reorganize_chain (node.py lines 183-187): when the input is set,
filter the referenced txid out of the utxo, then append the transaction. -/
def applyTx (u : List Transaction) (t : Transaction) : List Transaction :=
  (match t.input with
   | some i => u.filter (fun x => ¬ (x.get_txid = i))
   | none => u) ++ [t]

/-- Roll forward loop of Node._reorganize_chain (node.py lines 183-188):
apply every transaction of every block in chain order, discarding each
applied txid from the stale set. -/
def rollForwardTxs : List Transaction → List Transaction → List TxID →
    List Transaction × List TxID
  | [], u, st => (u, st)
  | t :: ts, u, st =>
    rollForwardTxs ts (applyTx u t) (st.filter (fun i => ¬ (i = t.get_txid)))

/-- Block level wrapper of the roll forward loop. -/
def rollForward : List Block → List Transaction → List TxID →
    List Transaction × List TxID
  | [], u, st => (u, st)
  | b :: rest, u, st =>
    let r := rollForwardTxs b.transactions u st
    rollForward rest r.1 r.2

/-- Mempool reconciliation loop of Node._reorganize_chain (node.py lines
193-195): Python iterates the mempool by index while the body appends to the
same list, so the iteration sees the appended elements; the loop removes
nothing and appends every transaction whose txid is not stale.  When some
reachable element is not stale the list grows at least as fast as the index
and the loop never ends; none covers that divergence together with fuel
exhaustion. -/
def reconcileLoop (stale : List TxID) :
    Nat → Nat → List Transaction → Option (List Transaction)
  | 0, i, mp =>
    if mp.length ≤ i then some mp else none
  | fuel + 1, i, mp =>
    if mp.length ≤ i then some mp
    else
      let t := mp.getD i { output := 0, input := none, signature := 0 }
      let mp1 := if t.get_txid ∈ stale then mp else mp ++ [t]
      reconcileLoop stale fuel (i + 1) mp1

/-- Node._reorganize_chain (node.py lines 166-197): find the split point,
roll back to it, compute the stale txids from the old branch, collect and
apply the new branch, set the tip, then run the mempool reconciliation
loop.  none means a fuel ran out, a store lookup failed (exception in the
source) or the reconciliation loop diverges. -/
def reorganize_chain (fuel : Nat) (s : NodeState) (new_tip : BlockHash) :
    Option NodeState :=
  (findSplit s.blocks fuel (some s.latest_block_hash) (some new_tip)
      []).bind (fun split =>
    (rollbackAux s.blocks split fuel s.latest_block_hash s.utxo
        s.mempool).bind (fun rb =>
      (collectChain s.blocks split fuel s.latest_block_hash).bind
        (fun staleBlocks =>
          let stale := (staleBlocks.map
            (fun b => b.transactions.map Transaction.get_txid)).flatten
          (collectChain s.blocks split fuel new_tip).bind (fun newChain =>
            let r := rollForward newChain.reverse rb.1 stale
            (reconcileLoop r.2 fuel 0 rb.2).map (fun m2 =>
              { s with utxo := r.1, mempool := m2,
                       latest_block_hash := new_tip })))))

/-- Node.notify_of_block (node.py lines 65-109): return unchanged when the
hash is already known, pull and validate candidates from the sender, run the
store loop, compare the chain lengths of the notified hash and the current
tip over the updated store, and reorganize when the candidate is strictly
longer.  The final peer notification guard only drives propagation to peers
and is omitted.  none means a fuel ran out, an exception was raised inside
the reorganization, or the reconciliation loop diverges. -/
def notify_of_block (fuel : Nat) (fetch : BlockHash → Option Block)
    (V : VerifyFn) (s : NodeState) (h : BlockHash) : Option NodeState :=
  if (lookupB s.blocks h).isSome then some s
  else
    (walkFetch fetch V s fuel h).bind (fun wr =>
      let blocks1 := storeLoop wr.2 wr.1.reverse s.blocks
      let s1 := { s with blocks := blocks1 }
      (chainLength blocks1 fuel h).bind (fun lc =>
        (chainLength blocks1 fuel s.latest_block_hash).bind (fun ll =>
          if ll < lc then reorganize_chain fuel s1 h else some s1)))

/-- Modelled from the spec: the replay reference for the replay equivalence
property, the utxo obtained by applying the blocks of the adopted chain from
genesis in one pass, each block acting through the apply-block effect (the
same per-transaction effect the roll forward loop of the source uses). -/
def replayFromGenesis (fuel : Nat) (bs : List (BlockHash × Block))
    (tip : BlockHash) : Option (List Transaction) :=
  (collectChain bs GENESIS_BLOCK_PREV fuel tip).map
    (fun ch => ch.reverse.foldl (fun u b => b.transactions.foldl applyTx u) [])

/-! Concrete fixtures used by the claim theorems. -/

/-- Verify capability accepting every signature. -/
def trueV : VerifyFn := fun _ _ _ => true

/-- Coinbase of the first stored block of the C1 scenario. -/
def a1C1 : Transaction := { output := 0, input := none, signature := 11 }

/-- Coinbase of the second stored block of the C1 scenario. -/
def a2C1 : Transaction := { output := 0, input := none, signature := 12 }

/-- First stored block of the C1 scenario. -/
def blkA1 : Block := { prev_block_hash := GENESIS_BLOCK_PREV,
                       transactions := [a1C1] }

/-- Second stored block of the C1 scenario. -/
def blkA2 : Block := { prev_block_hash := blkA1.get_block_hash,
                       transactions := [a2C1] }

/-- Digest no block of the C1 scenario hashes to: the candidate block claims
it as predecessor and the sender cannot substantiate it. -/
def unknownH : BlockHash :=
  (Block.mk GENESIS_BLOCK_PREV
    [{ output := 0, input := none, signature := 99 }]).get_block_hash

/-- Candidate block of the C1 scenario, hanging off the unknown digest. -/
def blkB1 : Block :=
  { prev_block_hash := unknownH,
    transactions := [{ output := 1, input := none, signature := 1 }] }

/-- Node state of the C1 scenario: a two block chain is adopted. -/
def sC1 : NodeState :=
  { public_key := 0, mempool := [],
    blocks := [(blkA1.get_block_hash, blkA1), (blkA2.get_block_hash, blkA2)],
    latest_block_hash := blkA2.get_block_hash,
    utxo := [a1C1, a2C1] }

/-- Sender of the C1 scenario: it serves the candidate tip and nothing
else, so the fetch of its predecessor fails. -/
def fetchC1 : BlockHash → Option Block :=
  fun h => if h = blkB1.get_block_hash then some blkB1 else none

/-- Shared coinbase of the C2 scenario, mined below the split point. -/
def c1C2 : Transaction := { output := 1, input := none, signature := 1 }

/-- Shared block of the C2 scenario. -/
def blkS1 : Block :=
  { prev_block_hash := GENESIS_BLOCK_PREV, transactions := [c1C2] }

/-- Transaction of the old branch spending the shared coinbase. -/
def tC2 : Transaction :=
  { output := 2, input := some c1C2.get_txid, signature := 5 }

/-- Coinbase of the old branch block. -/
def c2C2 : Transaction := { output := 0, input := none, signature := 6 }

/-- Old branch block of the C2 scenario. -/
def blkOld2 : Block :=
  { prev_block_hash := blkS1.get_block_hash, transactions := [tC2, c2C2] }

/-- First coinbase of the new branch. -/
def c2p : Transaction := { output := 3, input := none, signature := 8 }

/-- Second coinbase of the new branch. -/
def c3p : Transaction := { output := 3, input := none, signature := 9 }

/-- First new branch block of the C2 scenario. -/
def blkNew2 : Block :=
  { prev_block_hash := blkS1.get_block_hash, transactions := [c2p] }

/-- Second new branch block of the C2 scenario. -/
def blkNew3 : Block :=
  { prev_block_hash := blkNew2.get_block_hash, transactions := [c3p] }

/-- Node state of the C2 scenario: the old two block chain is adopted, its
blocks and the already validated new branch sit in the store, and the utxo
is exactly the replay of the old chain. -/
def sC2 : NodeState :=
  { public_key := 0, mempool := [],
    blocks := [(blkS1.get_block_hash, blkS1),
               (blkOld2.get_block_hash, blkOld2),
               (blkNew2.get_block_hash, blkNew2),
               (blkNew3.get_block_hash, blkNew3)],
    latest_block_hash := blkOld2.get_block_hash,
    utxo := [tC2, c2C2] }

/-- Record the C3 block references as its input: it is absent from the C3
utxo. -/
def wC3 : Transaction := { output := 9, input := none, signature := 99 }

/-- First spender of the C3 scenario. -/
def t1C3 : Transaction :=
  { output := 5, input := some wC3.get_txid, signature := 31 }

/-- Second spender of the C3 scenario, consuming the same input. -/
def t2C3 : Transaction :=
  { output := 6, input := some wC3.get_txid, signature := 32 }

/-- Coinbase of the C3 block. -/
def cbC3 : Transaction := { output := 7, input := none, signature := 33 }

/-- C3 block: two spends of the same absent output plus one coinbase. -/
def blkC3 : Block :=
  { prev_block_hash := GENESIS_BLOCK_PREV,
    transactions := [t1C3, t2C3, cbC3] }

/-- Node state of the C3 scenario: the two spenders themselves sit in the
utxo, the output they spend does not. -/
def sC3 : NodeState :=
  { public_key := 0, mempool := [], blocks := [],
    latest_block_hash := GENESIS_BLOCK_PREV, utxo := [t1C3, t2C3] }

/-- Stored block of the C4 scenario. -/
def blkA1C4 : Block :=
  { prev_block_hash := GENESIS_BLOCK_PREV,
    transactions := [{ output := 0, input := none, signature := 11 }] }

/-- First candidate block of the C4 scenario. -/
def blkC1C4 : Block :=
  { prev_block_hash := blkA1C4.get_block_hash,
    transactions := [{ output := 1, input := none, signature := 21 }] }

/-- Second candidate block of the C4 scenario. -/
def blkC2C4 : Block :=
  { prev_block_hash := blkC1C4.get_block_hash,
    transactions := [{ output := 1, input := none, signature := 22 }] }

/-- Block store of the C4 sender: the shared block plus the two candidate
blocks, a fully validated chain of length three from genesis. -/
def senderBlocksC4 : List (BlockHash × Block) :=
  [(blkA1C4.get_block_hash, blkA1C4),
   (blkC1C4.get_block_hash, blkC1C4),
   (blkC2C4.get_block_hash, blkC2C4)]

/-- Fetch capability of the C4 sender. -/
def fetchC4 : BlockHash → Option Block := lookupB senderBlocksC4

/-- Node state of the C4 scenario: a one block chain is adopted. -/
def sC4 : NodeState :=
  { public_key := 0, mempool := [],
    blocks := [(blkA1C4.get_block_hash, blkA1C4)],
    latest_block_hash := blkA1C4.get_block_hash, utxo := [] }

/-- Unspent output of the C5 scenario, owned by public key 7. -/
def uC5 : Transaction := { output := 7, input := none, signature := 41 }

/-- Transaction submitted in the C5 scenario, paying public key 8. -/
def tC5 : Transaction :=
  { output := 8, input := some uC5.get_txid, signature := 51 }

/-- Verify capability of the C5 scenario: it accepts every message of the
shape the source uses (the txid of the new transaction) and rejects every
message of the shape the spec demands (input ++ output). -/
def vC5 : VerifyFn := fun m _ _ =>
  match m with
  | Msg.txidOf _ => true
  | Msg.inputOutput _ _ => false

/-- Node state of the C5 scenario. -/
def sC5 : NodeState :=
  { public_key := 0, mempool := [], blocks := [],
    latest_block_hash := GENESIS_BLOCK_PREV, utxo := [uC5] }

/-- Unspent output of the C6 scenario. -/
def uC6 : Transaction := { output := 1, input := none, signature := 41 }

/-- Mempool entry of the C6 scenario, spending the C6 output. -/
def mC6 : Transaction :=
  { output := 3, input := some uC6.get_txid, signature := 61 }

/-- Transaction submitted in the C6 scenario, spending the same output as
the mempool entry. -/
def tC6 : Transaction :=
  { output := 4, input := some uC6.get_txid, signature := 62 }

/-- Node state of the C6 scenario: a mempool entry spending the output
coexists with the output in the utxo (the shape a rollback produces). -/
def sC6 : NodeState :=
  { public_key := 0, mempool := [mC6], blocks := [],
    latest_block_hash := GENESIS_BLOCK_PREV, utxo := [uC6] }

/-- Unspent output of the C7 scenario. -/
def uC7 : Transaction := { output := 1, input := none, signature := 71 }

/-- Transaction submitted in the C7 scenario. -/
def tC7 : Transaction :=
  { output := 4, input := some uC7.get_txid, signature := 72 }

/-- Node state of the C7 scenario. -/
def sC7 : NodeState :=
  { public_key := 0, mempool := [], blocks := [],
    latest_block_hash := GENESIS_BLOCK_PREV, utxo := [uC7] }

/-- Node state with nothing in it, used by the witnesses. -/
def sEmptyU : NodeState :=
  { public_key := 0, mempool := [], blocks := [],
    latest_block_hash := GENESIS_BLOCK_PREV, utxo := [] }

/-- Prior own coinbase of the C8 scenario. -/
def kC8 : Transaction := { output := 5, input := none, signature := 81 }

/-- Node state of the C8 scenario: the mempool is empty but one own coin is
already unspent. -/
def sC8 : NodeState :=
  { public_key := 5, mempool := [], blocks := [],
    latest_block_hash := GENESIS_BLOCK_PREV, utxo := [kC8] }

/-- Mempool of the C9 scenario: BLOCK_SIZE pending transactions. -/
def mpC9 : List Transaction :=
  (List.range BLOCK_SIZE).map
    (fun i => { output := 1, input := none, signature := 101 + i })

/-- Node state of the C9 scenario. -/
def sC9 : NodeState :=
  { public_key := 0, mempool := mpC9, blocks := [],
    latest_block_hash := GENESIS_BLOCK_PREV, utxo := [] }

/-- Mempool entry of the C10 scenario; it is not stale during the
reorganization, so the reconciliation loop keeps appending it. -/
def tC10 : Transaction := { output := 0, input := none, signature := 7 }

/-- Candidate block of the C10 scenario. -/
def blkC10 : Block :=
  { prev_block_hash := GENESIS_BLOCK_PREV,
    transactions := [{ output := 1, input := none, signature := 3 }] }

/-- Fetch capability of the C10 sender. -/
def fetchC10 : BlockHash → Option Block :=
  fun h => if h = blkC10.get_block_hash then some blkC10 else none

/-- Node state of the C10 scenario: empty chain, one pending transaction. -/
def sC10 : NodeState :=
  { public_key := 0, mempool := [tC10], blocks := [],
    latest_block_hash := GENESIS_BLOCK_PREV, utxo := [] }

/-- Node state of the C10 scenario after the store loop has recorded the
candidate block. -/
def sC10b : NodeState :=
  { sC10 with blocks := [(blkC10.get_block_hash, blkC10)] }

/-! Helper lemmas. -/

/-- Looking up a key absent from a store finds the binding appended for
it. -/
theorem lookupB_append_notfound (bs : List (BlockHash × Block))
    (k : BlockHash) (b : Block) (h : lookupB bs k = none) :
    lookupB (bs ++ [(k, b)]) k = some b := by
  induction bs with
  | nil => simp [lookupB]
  | cons p rest ih =>
    rcases p with ⟨k1, c1⟩
    rw [lookupB] at h
    by_cases hk : k1 = k
    · rw [if_pos hk] at h
      exact Option.noConfusion h
    · rw [if_neg hk] at h
      rw [List.cons_append, lookupB, if_neg hk]
      exact ih h

/-- Looking up a key present in a store finds the binding the replacement
map wrote for it. -/
theorem lookupB_map_found (bs : List (BlockHash × Block)) (k : BlockHash)
    (b : Block) (h : (lookupB bs k).isSome = true) :
    lookupB (bs.map (fun p => if p.1 = k then (k, b) else p)) k =
      some b := by
  induction bs with
  | nil => simp [lookupB] at h
  | cons p rest ih =>
    rcases p with ⟨k1, c1⟩
    by_cases hk : k1 = k
    · subst hk
      simp only [List.map_cons]
      rw [if_pos trivial]
      rw [lookupB, if_pos rfl]
    · rw [lookupB, if_neg hk] at h
      simp only [List.map_cons]
      rw [if_neg hk]
      rw [lookupB, if_neg hk]
      exact ih h

/-- Dictionary update then lookup at the same key finds the new block. -/
theorem lookupB_insertB (bs : List (BlockHash × Block)) (k : BlockHash)
    (b : Block) : lookupB (insertB bs k b) k = some b := by
  unfold insertB
  by_cases hs : (lookupB bs k).isSome = true
  · rw [if_pos hs]
    exact lookupB_map_found bs k b hs
  · rw [if_neg hs]
    refine lookupB_append_notfound bs k b ?_
    cases hlk : lookupB bs k with
    | none => rfl
    | some c => rw [hlk] at hs; simp at hs

/-- The ancestor pull loop returns at once on the genesis sentinel, for
every fuel. -/
theorem walkFetch_genesis (fetch : BlockHash → Option Block) (V : VerifyFn)
    (s : NodeState) (fuel : Nat) :
    walkFetch fetch V s fuel GENESIS_BLOCK_PREV =
      some ([], GENESIS_BLOCK_PREV) := by
  cases fuel <;> (rw [walkFetch]; exact if_pos (Or.inl rfl))

/-- The chain length walk returns zero on a hash without a stored block,
for every fuel. -/
theorem chainLength_notfound (bs : List (BlockHash × Block)) (k : BlockHash)
    (h : lookupB bs k = none) (fuel : Nat) :
    chainLength bs fuel k = some 0 := by
  cases fuel <;> (rw [chainLength]; rw [h]; rfl)

/-- The split point walk returns the right hash as soon as it is among the
seen hashes and the left walk has fallen off the store, for every fuel. -/
theorem findSplit_none_mem (bs : List (BlockHash × Block)) (fuel : Nat)
    (v : BlockHash) (seen : List BlockHash) (hv : v ∈ seen) :
    findSplit bs fuel none (some v) seen = some v := by
  cases fuel <;>
    (rw [findSplit]
     rw [if_neg (by simp)]
     rw [if_neg (by simp [Option.elim])]
     rw [if_pos (by simp [Option.elim, hv])])

/-- The rollback walk is the identity when the tip already is the split
point, for every fuel. -/
theorem rollbackAux_refl (bs : List (BlockHash × Block)) (split : BlockHash)
    (fuel : Nat) (u m : List Transaction) :
    rollbackAux bs split fuel split u m = some (u, m) := by
  cases fuel <;> (rw [rollbackAux]; exact if_pos rfl)

/-- The chain collection walk is empty when the tip already is the split
point, for every fuel. -/
theorem collectChain_refl (bs : List (BlockHash × Block)) (split : BlockHash)
    (fuel : Nat) : collectChain bs split fuel split = some [] := by
  cases fuel <;> (rw [collectChain]; exact if_pos rfl)

/-- The mempool reconciliation loop with an empty stale set never ends when
the index is still inside the list: every step appends the element at the
index, so the list stays ahead of the index for every fuel. -/
theorem reconcileLoop_nil_stale :
    ∀ (fuel i : Nat) (mp : List Transaction), i < mp.length →
      reconcileLoop [] fuel i mp = none := by
  intro fuel
  induction fuel with
  | zero =>
    intro i mp h
    rw [reconcileLoop]
    exact if_neg (by omega)
  | succ f ih =>
    intro i mp h
    simp only [reconcileLoop]
    rw [if_neg (by omega)]
    rw [if_neg (List.not_mem_nil _)]
    refine ih (i + 1) _ ?_
    simp only [List.length_append, List.length_cons, List.length_nil]
    omega

/-- The reorganization of the C10 scenario diverges for every fuel: the
reconciliation loop starts with the pending transaction of the node, which
is not stale. -/
theorem reorganize_sC10_diverges :
    ∀ g, reorganize_chain (g + 1) sC10b blkC10.get_block_hash = none := by
  intro g
  have hsplit : findSplit sC10b.blocks (g + 1)
      (some sC10b.latest_block_hash) (some blkC10.get_block_hash) [] =
      some GENESIS_BLOCK_PREV := by
    rw [findSplit]
    rw [if_neg (by simp)]
    rw [if_neg (by simp [Option.elim])]
    rw [if_neg (by simp [Option.elim])]
    exact findSplit_none_mem _ g _ _ (by decide)
  have hnew : collectChain sC10b.blocks GENESIS_BLOCK_PREV (g + 1)
      blkC10.get_block_hash = some [blkC10] := by
    rw [collectChain]
    rw [if_neg (by decide)]
    have hl : lookupB sC10b.blocks blkC10.get_block_hash = some blkC10 := by
      decide
    rw [hl]
    simp only [Option.some_bind]
    rw [show blkC10.prev_block_hash = GENESIS_BLOCK_PREV from rfl]
    rw [collectChain_refl]
    rfl
  simp only [reorganize_chain, hsplit, Option.some_bind]
  rw [show sC10b.latest_block_hash = GENESIS_BLOCK_PREV from rfl]
  rw [rollbackAux_refl, collectChain_refl, hnew]
  simp only [Option.some_bind]
  have hrec := reconcileLoop_nil_stale (g + 1) 0 sC10b.mempool (by decide)
  show Option.map _ (reconcileLoop [] (g + 1) 0 sC10b.mempool) = none
  rw [hrec]
  rfl

/-- C10: the claim that every notifyOfBlock call terminates is refuted by
the code: in the C10 scenario the notification adopts the candidate block
and enters the mempool reconciliation loop with one pending transaction
that is not stale, and because the loop appends to the list it iterates,
no amount of fuel makes the call return; the claim is right about the
intended behaviour and the code is wrong. -/
theorem notify_reorg_reconcile_diverges :
    ∀ fuel, notify_of_block fuel fetchC10 trueV sC10 blkC10.get_block_hash =
      none := by
  intro fuel
  cases fuel with
  | zero => decide
  | succ f =>
    have hwalk : walkFetch fetchC10 trueV sC10 (f + 1)
        blkC10.get_block_hash = some ([blkC10], GENESIS_BLOCK_PREV) := by
      rw [walkFetch]
      rw [if_neg (by decide)]
      rw [show fetchC10 blkC10.get_block_hash = some blkC10 from rfl]
      simp only [Option.elim]
      rw [if_pos (by decide)]
      rw [show blkC10.prev_block_hash = GENESIS_BLOCK_PREV from rfl]
      rw [walkFetch_genesis]
      rfl
    rw [notify_of_block]
    rw [if_neg (by decide)]
    rw [hwalk]
    simp only [Option.some_bind]
    rw [show storeLoop GENESIS_BLOCK_PREV [blkC10].reverse sC10.blocks =
      sC10b.blocks from by decide]
    have hlc : chainLength sC10b.blocks (f + 1) blkC10.get_block_hash =
        some 1 := by
      rw [chainLength]
      rw [show lookupB sC10b.blocks blkC10.get_block_hash = some blkC10
        from by decide]
      simp only [Option.elim]
      rw [show blkC10.prev_block_hash = GENESIS_BLOCK_PREV from rfl]
      rw [chainLength_notfound _ _ (by decide) f]
      rfl
    have hll : chainLength sC10b.blocks (f + 1) sC10.latest_block_hash =
        some 0 := chainLength_notfound _ _ (by decide) (f + 1)
    rw [hlc, hll]
    simp only [Option.some_bind]
    rw [if_pos (by omega)]
    exact reorganize_sC10_diverges f

/-- C6 amended: submitTransaction rejects, with no state change, every
transaction whose input is set but absent from the utxo txids; mempool
conflicts are prevented only indirectly, because a successful admission
removes the referenced utxo entry, so a second transaction spending the
same input is then rejected by the utxo check.  A direct mempool conflict
check is absent from the code, see the counterexample. -/
theorem submit_rejects_when_input_not_in_utxo (V : VerifyFn) (s : NodeState)
    (t : Transaction) (i : TxID) (hin : t.input = some i) :
    (i ∉ s.utxo.map Transaction.get_txid →
      add_transaction_to_mempool V s t = (false, s)) ∧
    (∀ s1, add_transaction_to_mempool V s t = (true, s1) →
      ∀ t2, t2.input = some i →
        add_transaction_to_mempool V s1 t2 = (false, s1)) := by
  constructor
  · intro hmiss
    unfold add_transaction_to_mempool
    rw [hin]
    by_cases hv : V (Msg.txidOf t.get_txid) t.signature t.output = true
    · rw [if_neg (not_not_intro hv)]
      simp only [Option.elim]
      rw [if_neg hmiss]
    · rw [if_pos hv]
  · intro s1 hsucc t2 hin2
    unfold add_transaction_to_mempool at hsucc
    rw [hin] at hsucc
    by_cases hv : V (Msg.txidOf t.get_txid) t.signature t.output = true
    · rw [if_neg (not_not_intro hv)] at hsucc
      simp only [Option.elim] at hsucc
      by_cases hmem : i ∈ s.utxo.map Transaction.get_txid
      · rw [if_pos hmem] at hsucc
        injection hsucc with h1 h2
        have hnot : i ∉ s1.utxo.map Transaction.get_txid := by
          rw [← h2]
          simp only [List.mem_map, List.mem_filter]
          rintro ⟨u, ⟨hu, hcond⟩, heq⟩
          rw [decide_eq_true_eq] at hcond
          exact hcond (by rw [heq])
        unfold add_transaction_to_mempool
        rw [hin2]
        by_cases hv2 : V (Msg.txidOf t2.get_txid) t2.signature t2.output
            = true
        · rw [if_neg (not_not_intro hv2)]
          simp only [Option.elim]
          rw [if_neg hnot]
        · rw [if_pos hv2]
      · rw [if_neg hmem] at hsucc
        simp at hsucc
    · rw [if_pos hv] at hsucc
      simp at hsucc

/-- C7 amended: a successful submitTransaction requires the referenced
utxo entry to be present at admission time, removes it from the utxo set
(an optimistic spend), and appends the transaction to the mempool; the
admitted transaction therefore references an input that is no longer a
utxo key, contrary to the claimed invariant, see the counterexample. -/
theorem submit_success_spends_referenced_entry (V : VerifyFn)
    (s : NodeState) (t : Transaction) (i : TxID)
    (s1 : NodeState) (hin : t.input = some i)
    (hsucc : add_transaction_to_mempool V s t = (true, s1)) :
    i ∈ s.utxo.map Transaction.get_txid ∧
    i ∉ s1.utxo.map Transaction.get_txid ∧ t ∈ s1.mempool := by
  unfold add_transaction_to_mempool at hsucc
  rw [hin] at hsucc
  by_cases hv : V (Msg.txidOf t.get_txid) t.signature t.output = true
  · rw [if_neg (not_not_intro hv)] at hsucc
    simp only [Option.elim] at hsucc
    by_cases hmem : i ∈ s.utxo.map Transaction.get_txid
    · rw [if_pos hmem] at hsucc
      injection hsucc with h1 h2
      refine ⟨hmem, ?_, ?_⟩
      · rw [← h2]
        simp only [List.mem_map, List.mem_filter]
        rintro ⟨u, ⟨hu, hcond⟩, heq⟩
        rw [decide_eq_true_eq] at hcond
        exact hcond (by rw [heq])
      · rw [← h2]
        simp
    · rw [if_neg hmem] at hsucc
      simp at hsucc
  · rw [if_pos hv] at hsucc
    simp at hsucc

/-- C8 amended: mineBlock never fails, it returns the hash of the freshly
assembled block, stores that block under its hash and moves the tip to it;
with an empty mempool the block holds exactly the coinbase paying the own
address; and a fresh node (empty mempool and empty utxo) has balance one
afterwards.  A node with an empty mempool but prior own coins ends with a
larger balance, see the counterexample. -/
theorem mine_block_total_coinbase_only (s : NodeState) (nonce : Nat) :
    (mine_block nonce s).1 =
      (Block.mk s.latest_block_hash (s.mempool.take (BLOCK_SIZE - 1) ++
        [Transaction.mk s.public_key none nonce])).get_block_hash ∧
    lookupB (mine_block nonce s).2.blocks (mine_block nonce s).1 =
      some (Block.mk s.latest_block_hash (s.mempool.take (BLOCK_SIZE - 1) ++
        [Transaction.mk s.public_key none nonce])) ∧
    (mine_block nonce s).2.latest_block_hash = (mine_block nonce s).1 ∧
    (s.mempool = [] →
      s.mempool.take (BLOCK_SIZE - 1) ++
        [Transaction.mk s.public_key none nonce] =
        [Transaction.mk s.public_key none nonce]) ∧
    (s.mempool = [] → s.utxo = [] →
      get_balance (mine_block nonce s).2 = 1) := by
  refine ⟨rfl, ?_, rfl, ?_, ?_⟩
  · exact lookupB_insertB _ _ _
  · intro h1
    rw [h1]
    rfl
  · intro h1 h2
    simp only [mine_block, get_balance]
    rw [h1, h2]
    simp [mineApply]

/-- C1: the claim that a fetch failure before a known ancestor aborts the
whole notification with no state change is refuted by the code: the sender
of the scenario serves only the candidate tip, whose predecessor digest it
cannot substantiate, yet the notification records the tip block in the
block store; the claim is right about the intended behaviour and the code
is wrong. -/
theorem notify_fetch_failure_mutates_state :
    fetchC1 unknownH = none ∧
    blkB1.prev_block_hash = unknownH ∧
    is_valid_block trueV sC1 blkB1 = true ∧
    notify_of_block 10 fetchC1 trueV sC1 blkB1.get_block_hash =
      some { sC1 with
        blocks := sC1.blocks ++ [(blkB1.get_block_hash, blkB1)] } ∧
    sC1.blocks ++ [(blkB1.get_block_hash, blkB1)] ≠ sC1.blocks := by
  decide

/-- C2: the claim of replay equivalence is refuted by the code: rolling
back the old branch removes its transactions from the utxo but never
re-inserts the entries they had consumed, so after the reorganization of
the scenario the shared coinbase is missing from the utxo while the replay
of the adopted chain from genesis contains it; the claim is right about
the intended behaviour and the code is wrong. -/
theorem reorg_breaks_replay_equivalence :
    reorganize_chain 10 sC2 blkNew3.get_block_hash =
      some { sC2 with utxo := [c2p, c3p], mempool := [tC2],
                      latest_block_hash := blkNew3.get_block_hash } ∧
    replayFromGenesis 10 sC2.blocks blkNew3.get_block_hash =
      some [c1C2, c2p, c3p] ∧
    ([c2p, c3p] : List Transaction) ≠ [c1C2, c2p, c3p] := by
  decide

/-- C3: the claim that block validation rejects a non coinbase transaction
whose input is not an unspent output, and rejects two spends of one input
inside a block, is refuted by the code: the scenario block spends an
absent output twice, its two spenders merely sit in the utxo themselves,
and validation accepts it, because the code compares the txid of the
spender instead of its input against the utxo and only deduplicates
txids, not inputs; the claim is right about the intended behaviour and the
code is wrong. -/
theorem is_valid_block_accepts_double_spend :
    is_valid_block trueV sC3 blkC3 = true ∧
    t1C3.input = some wC3.get_txid ∧
    t2C3.input = some wC3.get_txid ∧
    t1C3.get_txid ≠ t2C3.get_txid ∧
    wC3.get_txid ∉ sC3.utxo.map Transaction.get_txid := by
  decide

/-- C4: the claim that a fully validated, strictly longer candidate chain
is always adopted is refuted by the code: the candidate chain of the
scenario has length three from genesis against the adopted length one, all
its blocks validate, yet the store loop records only the oldest fetched
block and breaks, the chain length of the unstored tip computes to zero,
and the node keeps its chain; the claim is right about the intended
behaviour and the code is wrong. -/
theorem strictly_longer_chain_not_adopted :
    is_valid_block trueV sC4 blkC1C4 = true ∧
    is_valid_block trueV sC4 blkC2C4 = true ∧
    chainLength senderBlocksC4 10 blkC2C4.get_block_hash = some 3 ∧
    chainLength sC4.blocks 10 sC4.latest_block_hash = some 1 ∧
    notify_of_block 10 fetchC4 trueV sC4 blkC2C4.get_block_hash =
      some { sC4 with
        blocks := sC4.blocks ++ [(blkC1C4.get_block_hash, blkC1C4)] } ∧
    ({ sC4 with blocks := sC4.blocks ++
        [(blkC1C4.get_block_hash, blkC1C4)] } : NodeState).latest_block_hash
      = sC4.latest_block_hash := by
  decide

/-- C5: the claim that mempool admission verifies the signature over
input ++ output against the key owning the referenced output is refuted by
the code: admission calls verify with the txid of the new transaction as
the message and the output of the new transaction as the key, so the
scenario transaction is accepted although the capability rejects every
message of the shape the spec demands; the claim is right about the
intended behaviour and the code is wrong. -/
theorem mempool_admission_uses_wrong_key_and_message :
    (add_transaction_to_mempool vC5 sC5 tC5).1 = true ∧
    tC5.input = some uC5.get_txid ∧
    uC5.get_txid ∈ sC5.utxo.map Transaction.get_txid ∧
    vC5 (Msg.inputOutput uC5.get_txid tC5.output) tC5.signature uC5.output
      = false := by
  decide

/-- C6 counterexample: in a state where a mempool entry and the utxo entry
it spends coexist, a second transaction with the same input is accepted
and appended, so the first writer wins clause of the claim fails as
stated. -/
theorem submit_accepts_conflicting_mempool_entry :
    mC6 ∈ sC6.mempool ∧ mC6.input = tC6.input ∧
    (add_transaction_to_mempool trueV sC6 tC6).1 = true ∧
    (add_transaction_to_mempool trueV sC6 tC6).2.mempool = [mC6, tC6] ∧
    (add_transaction_to_mempool trueV sC6 tC6).2 ≠ sC6 := by
  decide

/-- C6 witness: the amended rejection applied to a concrete transaction
whose input is absent from an empty utxo. -/
theorem submit_rejects_when_input_not_in_utxo_witness :
    tC7.input = some uC7.get_txid ∧
    uC7.get_txid ∉ sEmptyU.utxo.map Transaction.get_txid ∧
    add_transaction_to_mempool trueV sEmptyU tC7 = (false, sEmptyU) :=
  ⟨rfl, by decide,
    (submit_rejects_when_input_not_in_utxo trueV sEmptyU tC7 uC7.get_txid
      rfl).1 (by decide)⟩

/-- C7 counterexample: right after a successful submitTransaction the
admitted transaction sits in the mempool while the utxo entry it
references has been removed, so the claimed invariant fails after a top
level operation. -/
theorem submit_success_leaves_input_absent :
    tC7.input = some uC7.get_txid ∧
    add_transaction_to_mempool trueV sC7 tC7 =
      (true, { sC7 with utxo := [], mempool := [tC7] }) ∧
    tC7 ∈ ({ sC7 with utxo := [], mempool := [tC7] } : NodeState).mempool ∧
    uC7.get_txid ∉
      ({ sC7 with utxo := [], mempool := [tC7] } : NodeState).utxo.map
        Transaction.get_txid := by
  decide

/-- C7 witness: the amended statement applied to the concrete C7
scenario. -/
theorem submit_success_spends_referenced_entry_witness :
    uC7.get_txid ∈ sC7.utxo.map Transaction.get_txid ∧
    uC7.get_txid ∉
      (add_transaction_to_mempool trueV sC7 tC7).2.utxo.map
        Transaction.get_txid ∧
    tC7 ∈ (add_transaction_to_mempool trueV sC7 tC7).2.mempool :=
  submit_success_spends_referenced_entry trueV sC7 tC7 uC7.get_txid
    (add_transaction_to_mempool trueV sC7 tC7).2 rfl (by decide)

/-- C8 counterexample: a node with an empty mempool but one prior own coin
ends with balance two after mining, not one, so the balance clause of the
claim fails for a node that is merely mempool empty. -/
theorem mine_block_balance_not_one :
    sC8.mempool = [] ∧
    get_balance (mine_block 99 sC8).2 = 2 ∧
    get_balance (mine_block 99 sC8).2 ≠ 1 := by
  decide

/-- C8 witness: the amended statement applied to a fresh node. -/
theorem mine_block_total_coinbase_only_witness :
    sEmptyU.mempool = [] ∧ sEmptyU.utxo = [] ∧
    get_balance (mine_block 0 sEmptyU).2 = 1 :=
  ⟨rfl, rfl, (mine_block_total_coinbase_only sEmptyU 0).2.2.2.2 rfl rfl⟩

/-- C9: the claim that mining removes exactly the included transactions
from the mempool is refuted by the code: the slice sits inside the utxo
update loop and runs once per fresh block transaction, so a mempool of
BLOCK_SIZE pending transactions is emptied entirely although only
BLOCK_SIZE - 1 of them were included; the claim is right about the
intended behaviour (the source comment says remove them from the mempool)
and the code is wrong. -/
theorem mine_block_drops_extra_mempool_entries :
    sC9.mempool.length = BLOCK_SIZE ∧
    (mine_block 200 sC9).2.mempool = [] ∧
    sC9.mempool.drop (BLOCK_SIZE - 1) =
      [{ output := 1, input := none, signature := 110 }] ∧
    (mine_block 200 sC9).2.mempool ≠ sC9.mempool.drop (BLOCK_SIZE - 1) := by
  decide

end Ex2
